import Mathlib

/-!
Verification development for the Health-ScannerZA backend
(`app.py`, `database.py`, and the scoring function the app imports).

The embedding models:
* JSON-ish request/row values (`JVal`) as they flow through Flask handlers;
* the product store as the row type `app.py` reads and writes
  (`ProductRow`, whose `additives` column may be absent, as it is in the
  table created by `database.py`'s `init_db`), paired with the separate
  `additives` child table that `init_db` seeds;
* the two route handlers `add_product` (POST /api/product) and
  `get_product` (GET /api/product/barcode);
* the seed data and schema of `init_db`;
* the module-level import/arity facts deciding whether the app can start.
-/

set_option autoImplicit false

namespace HealthScanner

/-- JSON-ish value as delivered by `request.get_json()` and stored in rows:
null, a string, or a number (modelled exactly by a rational). -/
inductive JVal where
  | null
  | str (s : String)
  | num (q : ℚ)
  deriving DecidableEq, Repr

/-- A JSON object body, as an association list of key/value pairs. -/
abbrev Request := List (String × JVal)

/-- Python `data.get(k)` / `k in data`: first binding of key `k`, if any. -/
def jget (data : Request) (k : String) : Option JVal :=
  (data.find? (fun p => p.1 == k)).map Prod.snd

/-- Python truthiness of a `JVal` (used by `if additives_str:` in
`get_product`, app.py line 62). -/
def jTruthy : JVal → Bool
  | .null => false
  | .str s => s != ""
  | .num q => q != 0

/-- Python whitespace for `str.strip()` (ASCII part; the repository only
ever strips spaces). -/
def pyIsSpace (c : Char) : Bool :=
  c == ' ' || c == '\t' || c == '\n' || c == '\r' || c == '\x0b' || c == '\x0c'

/-- Python `str.strip()`: drop leading and trailing whitespace. -/
def pyStrip (s : String) : String :=
  ⟨((s.toList.dropWhile pyIsSpace).reverse.dropWhile pyIsSpace).reverse⟩

/-- Python `str.split(",")` on the character list: keeps empty fields,
`""` splits to `[""]`. -/
def splitCommaAux : List Char → List Char → List String
  | [], acc => [String.mk acc.reverse]
  | c :: rest, acc =>
    if c == ',' then String.mk acc.reverse :: splitCommaAux rest []
    else splitCommaAux rest (c :: acc)

/-- Python `s.split(",")`. -/
def splitComma (s : String) : List String :=
  splitCommaAux s.toList []

/-- Additive parsing, app.py line 64 and database.py line 89:
`[a.strip() for a in s.split(",") if a.strip()]`. -/
def parseAdditives (s : String) : List String :=
  (splitComma s).filterMap (fun a =>
    let t := pyStrip a
    if t == "" then none else some t)

/-- One row of the `products` table as `add_product` writes it and
`get_product` reads it.  The `additives` field is `none` when the row's
table has no `additives` column (the schema `init_db` creates,
database.py lines 48-63). -/
structure ProductRow where
  barcode : JVal
  name : JVal
  brand : JVal
  category : JVal
  sugar : JVal
  salt : JVal
  fat : JVal
  saturated_fat : JVal
  protein : JVal
  fiber : JVal
  calories : JVal
  additives : Option JVal
  deriving DecidableEq, Repr

/-- One row of the `additives` child table created and seeded by `init_db`
(database.py lines 66-73 and 88-91). -/
structure AdditiveRow where
  product_id : Nat
  additive : String
  deriving DecidableEq, Repr

/-- The database state: the `products` table and the `additives` child
table. -/
abbrev Store := List ProductRow × List AdditiveRow

/-- SQL equality used by `WHERE barcode = ?`: NULL compares equal to
nothing (not even to NULL). -/
def sqlEq (a b : JVal) : Bool :=
  match a, b with
  | .null, _ => false
  | _, .null => false
  | a, b => a == b

/-- The required-field list of `add_product`, app.py line 111. -/
def required_fields : List String :=
  ["barcode", "name", "brand", "sugar", "salt", "fat", "saturated_fat",
   "protein", "fiber", "calories"]

/-- Outcome of POST /api/product, by HTTP status: 400 missing fields,
409 duplicate barcode, 201 created, 500 storage error (app.py
lines 113-159; the unconstrained list store never raises, so
`storageError` is unreachable in this model). -/
inductive InsertResult where
  | badRequest (error : String)
  | conflict (barcode : JVal)
  | created (barcode : JVal)
  | storageError (details : String)
  deriving DecidableEq, Repr

/-- HTTP status code of each `add_product` outcome. -/
def InsertResult.httpStatus : InsertResult → Nat
  | .badRequest _ => 400
  | .conflict _ => 409
  | .created _ => 201
  | .storageError _ => 500

/-- `add_product` (app.py lines 104-159): validate presence of required
keys, reject duplicate barcodes, else insert one row (category defaults
to "General", nutrients to 0.0, additives to the raw string "") into the
`products` table.  The additive child table is untouched (the handler
stores the raw string in the row). -/
def add_product (store : Store) (data : Request) : InsertResult × Store :=
  if required_fields.all (fun f => (jget data f).isSome) then
    let barcode := (jget data "barcode").getD .null
    let additives_str := (jget data "additives").getD (.str "")
    match store.1.find? (fun r => sqlEq r.barcode barcode) with
    | some _ => (.conflict barcode, store)
    | none =>
      let row : ProductRow :=
        ⟨barcode,
         (jget data "name").getD .null,
         (jget data "brand").getD .null,
         (jget data "category").getD (.str "General"),
         (jget data "sugar").getD (.num 0),
         (jget data "salt").getD (.num 0),
         (jget data "fat").getD (.num 0),
         (jget data "saturated_fat").getD (.num 0),
         (jget data "protein").getD (.num 0),
         (jget data "fiber").getD (.num 0),
         (jget data "calories").getD (.num 0),
         some additives_str⟩
      (.created barcode, (store.1 ++ [row], store.2))
  else
    (.badRequest "Missing required nutritional fields.", store)

/-- Extraction of the additive list in `get_product` (app.py lines 60-66):
`product_dict.get("additives", "")`, truthiness test, then parse.  A
present, truthy, non-string value would crash Python's `.split` — that is
the `none` (fault) case. -/
def extractAdditives (col : Option JVal) : Option (List String) :=
  let v := col.getD (.str "")
  if jTruthy v then
    match v with
    | .str s => some (parseAdditives s)
    | _ => none
  else
    some []

/-- Coercion of a stored nutrient value to the number handed to the
scorer: per spec section 4.2 the scorer treats a missing/absent (NULL)
nutrient as zero; a non-numeric string would crash the comparison
(fault). -/
def jnum : JVal → Option ℚ
  | .null => some 0
  | .num q => some q
  | .str _ => none

/-- The five nutrient inputs of the scorer (app.py lines 69-75:
`nutrition_data` passes exactly sugar, salt, saturated_fat, protein,
fiber — not fat or calories). -/
structure NutritionInput where
  sugar : ℚ
  salt : ℚ
  saturated_fat : ℚ
  protein : ℚ
  fiber : ℚ
  deriving DecidableEq, Repr

/-- Modelled from the spec: sugar deduction band of the scorer
(`scoring.py` is imported by app.py line 4 but absent from the
repository).  Spec section 4.2: high band above 22.5 g per 100 g, medium
band from 5 g. -/
def sugarPenalty (sugar : ℚ) : ℚ :=
  if sugar > 22.5 then 30 else if sugar ≥ 5 then 15 else 0

/-- Modelled from the spec: salt deduction band (high above 1.5 g,
medium from 0.3 g per 100 g). -/
def saltPenalty (salt : ℚ) : ℚ :=
  if salt > 1.5 then 30 else if salt ≥ 0.3 then 15 else 0

/-- Modelled from the spec: saturated-fat deduction band (high above
5 g, medium from 1.5 g per 100 g). -/
def satFatPenalty (sf : ℚ) : ℚ :=
  if sf > 5 then 30 else if sf ≥ 1.5 then 15 else 0

/-- Modelled from the spec: protein bonus above its threshold. -/
def proteinBonus (p : ℚ) : ℚ :=
  if p ≥ 5 then 10 else 0

/-- Modelled from the spec: fiber bonus above its threshold. -/
def fiberBonus (f : ℚ) : ℚ :=
  if f ≥ 3 then 10 else 0

/-- Modelled from the spec: deduction per additive, scaled by count. -/
def additivePenaltyPerItem : ℚ := 5

/-- Modelled from the spec: `calculate_health_score` (`scoring.py`, not in
the repository; imported at app.py line 4).  Spec section 4.2: start from
baseline 100, apply banded deductions for sugar, salt and saturated fat,
bonuses for protein and fiber, a per-additive deduction scaled by count,
and clamp the result to the range 0-100. -/
def calculate_health_score (n : NutritionInput) (additives : List String) : ℚ :=
  min 100 (max 0
    (100 - sugarPenalty n.sugar - saltPenalty n.salt
       - satFatPenalty n.saturated_fat
       + proteinBonus n.protein + fiberBonus n.fiber
       - additivePenaltyPerItem * additives.length))

/-- The 200 response body of GET /api/product (app.py lines 81-97). -/
structure ProductResponse where
  barcode : JVal
  name : JVal
  brand : JVal
  category : JVal
  health_score : ℚ
  sugar : JVal
  salt : JVal
  fat : JVal
  saturated_fat : JVal
  protein : JVal
  fiber : JVal
  calories : JVal
  additives : List String
  deriving DecidableEq, Repr

/-- Outcome of GET /api/product: 404 with an error body, 200 with the
product body, or an unhandled Python fault. -/
inductive GetResult where
  | notFound (error : String)
  | ok (resp : ProductResponse)
  | fault
  deriving DecidableEq, Repr

/-- HTTP status of each `get_product` outcome (`none`: unhandled fault,
no status produced by the handler itself). -/
def GetResult.httpStatus : GetResult → Option Nat
  | .notFound _ => some 404
  | .ok _ => some 200
  | .fault => none

/-- The additive list of a 200 response, if the result is a 200. -/
def respAdditives : GetResult → Option (List String)
  | .ok r => some r.additives
  | _ => none

/-- `get_product` (app.py lines 39-101) over the `products` rows: fetch
the first row matching the barcode, 404 if none; extract additives from
the row's `additives` column only; score sugar, salt, saturated fat,
protein and fiber; return the response body. -/
def get_product (rows : List ProductRow) (barcode : String) : GetResult :=
  match rows.find? (fun r => sqlEq r.barcode (.str barcode)) with
  | none => .notFound "Product not found in the database."
  | some row =>
    match extractAdditives row.additives with
    | none => .fault
    | some additives_list =>
      match jnum row.sugar, jnum row.salt, jnum row.saturated_fat,
            jnum row.protein, jnum row.fiber with
      | some su, some sa, some st, some pr, some fi =>
        .ok ⟨row.barcode, row.name, row.brand, row.category,
             calculate_health_score ⟨su, sa, st, pr, fi⟩ additives_list,
             row.sugar, row.salt, row.fat, row.saturated_fat,
             row.protein, row.fiber, row.calories,
             additives_list⟩
      | _, _, _, _, _ => .fault

/-- The GET route as a state transformer: the handler only runs SELECT
statements, so the store passes through unchanged. -/
def get_product_route (store : Store) (barcode : String) : GetResult × Store :=
  (get_product store.1 barcode, store)

/-- One entry of `SAMPLE_PRODUCTS` (database.py lines 10-34): barcode,
name, brand, category, sugar, salt, fat, saturated_fat, protein, fiber,
calories, comma-separated additive string. -/
structure SampleProduct where
  barcode : String
  name : String
  brand : String
  category : String
  sugar : ℚ
  salt : ℚ
  fat : ℚ
  saturated_fat : ℚ
  protein : ℚ
  fiber : ℚ
  calories : ℚ
  additives_str : String
  deriving DecidableEq, Repr

/-- The 14 seed products of database.py lines 10-34. -/
def SAMPLE_PRODUCTS : List SampleProduct :=
  [⟨"6001000000018", "Coca-Cola Original Taste", "Coca-Cola", "Beverage",
    10.6, 0.0, 0.0, 0.0, 0.0, 0.0, 42.0, "E150d,E338"⟩,
   ⟨"6009618580016", "Simba Potato Chips Salt & Vinegar", "Simba", "Snack",
    0.7, 1.4, 30.0, 12.0, 5.7, 4.0, 520.0, "E621,E631"⟩,
   ⟨"6001234567890", "Albany Low GI Brown Bread", "Albany", "Bakery",
    3.0, 0.4, 2.0, 0.5, 10.0, 6.5, 230.0, "E471,E282"⟩,
   ⟨"6002000000001", "Clover Full Cream Milk", "Clover", "Dairy",
    4.7, 0.1, 3.3, 2.1, 3.4, 0.0, 61.0, ""⟩,
   ⟨"6009173000551", "Ouma Rusks Buttermilk", "Ouma", "Snack",
    12.0, 0.6, 12.0, 7.0, 8.0, 2.0, 450.0, "E471,E322"⟩,
   ⟨"6009184100234", "Tastic Rice", "Tastic", "Grain",
    0.2, 0.0, 0.0, 0.0, 7.0, 0.8, 360.0, ""⟩,
   ⟨"6009180000100", "Bokomo Pronutro Original", "Bokomo", "Cereal",
    14.0, 0.3, 5.0, 1.0, 20.0, 10.0, 390.0, "E320,E321"⟩,
   ⟨"6009210000213", "Fatti\x27s & Moni\x27s Macaroni", "Fatti\x27s & Moni\x27s", "Pasta",
    2.0, 0.0, 1.0, 0.3, 12.0, 3.0, 370.0, ""⟩,
   ⟨"6009686000058", "Liqui-Fruit 100% Apple Juice", "Liqui-Fruit", "Beverage",
    10.0, 0.0, 0.0, 0.0, 0.2, 0.0, 40.0, ""⟩,
   ⟨"6009178000013", "Koo Baked Beans in Tomato Sauce", "Koo", "Canned Food",
    5.0, 0.5, 0.5, 0.1, 4.0, 5.0, 100.0, "E1422,E412"⟩,
   ⟨"6001509000134", "Five Roses Tea Bags", "Five Roses", "Beverage",
    0.0, 0.0, 0.0, 0.0, 0.0, 0.0, 0.0, ""⟩,
   ⟨"6009170000200", "Mrs Ball\x27s Chutney Original", "Mrs Ball\x27s", "Condiment",
    20.0, 1.0, 0.1, 0.0, 0.1, 0.5, 80.0, "E330,E415"⟩,
   ⟨"6009695000045", "Nola Mayonnaise", "Nola", "Condiment",
    4.0, 0.8, 70.0, 10.0, 1.0, 0.0, 650.0, "E385,E412"⟩,
   ⟨"6009121000022", "I&J Fish Fingers", "I&J", "Frozen Food",
    2.0, 0.6, 10.0, 2.0, 12.0, 1.0, 250.0, "E160a,E412"⟩]

/-- The `products` row `init_db` inserts for a seed product (database.py
lines 79-83): the INSERT names no `additives` column — the table it
creates has none — so the row's `additives` field is absent. -/
def seedRow (p : SampleProduct) : ProductRow :=
  ⟨.str p.barcode, .str p.name, .str p.brand, .str p.category,
   .num p.sugar, .num p.salt, .num p.fat, .num p.saturated_fat,
   .num p.protein, .num p.fiber, .num p.calories, none⟩

/-- The `additives` child rows `init_db` inserts for one seed product
(database.py lines 88-91): nothing when the raw string is empty,
otherwise one row per parsed additive, keyed by the product's rowid. -/
def seedAdditiveRows (product_id : Nat) (additives_str : String) : List AdditiveRow :=
  if additives_str == "" then []
  else (parseAdditives additives_str).map (fun a => ⟨product_id, a⟩)

/-- The store as populated by `init_db` on a fresh database file
(database.py lines 42-99): all 14 seed products in `products` (rowids
1..14), and their additives in the separate child table. -/
def init_db_store : Store :=
  (SAMPLE_PRODUCTS.map seedRow,
   SAMPLE_PRODUCTS.enum.flatMap
     (fun pr => seedAdditiveRows (pr.1 + 1) pr.2.additives_str))

/-- The names bound at module level in database.py. -/
def databaseModuleNames : List String :=
  ["sqlite3", "os", "DATABASE", "SAMPLE_PRODUCTS", "get_db_connection",
   "init_db", "check_db_exists"]

/-- The names app.py line 3 imports from the `database` module. -/
def appImportsFromDatabase : List String :=
  ["create_connection", "check_db_exists", "DB_NAME"]

/-- Python `from database import ...` succeeds only if every imported
name is bound in the module; otherwise it raises ImportError at module
load. -/
def appModuleImportOk : Bool :=
  appImportsFromDatabase.all (fun n => databaseModuleNames.contains n)

/-- Parameter count of `check_db_exists` (database.py line 102: it takes
`app`). -/
def check_db_exists_paramCount : Nat := 1

/-- Argument count of the `check_db_exists()` call in app.py's startup
block (line 167). -/
def appStartupCallArgCount : Nat := 0

/-- The app's startup sequence: module load (the `from database import`
line) must succeed, then `check_db_exists()` is called; a wrong argument
count raises TypeError.  Only then would the server start serving. -/
def appStartup : Except String Unit :=
  if appModuleImportOk then
    if check_db_exists_paramCount == appStartupCallArgCount then .ok ()
    else .error "TypeError"
  else .error "ImportError"

/-- The Coca-Cola seed product, used as a concrete instantiation. -/
def cokeSample : SampleProduct :=
  ⟨"6001000000018", "Coca-Cola Original Taste", "Coca-Cola", "Beverage",
   10.6, 0.0, 0.0, 0.0, 0.0, 0.0, 42.0, "E150d,E338"⟩

/-- A concrete valid POST body (all required fields, additives with messy
whitespace) for instantiating the round-trip theorem. -/
def w1Request : Request :=
  [("barcode", .str "7001001001001"), ("name", .str "Test Bar"),
   ("brand", .str "TestCo"), ("sugar", .num 3), ("salt", .num 1),
   ("fat", .num 2), ("saturated_fat", .num 1), ("protein", .num 6),
   ("fiber", .num 4), ("calories", .num 250),
   ("additives", .str " E471, E282 ,,")]

/-- A concrete valid POST body for instantiating the duplicate-insert
theorem. -/
def w2Request : Request :=
  [("barcode", .str "8002002002002"), ("name", .str "Snack Pack"),
   ("brand", .str "BrandB"), ("sugar", .num 12), ("salt", .num 2),
   ("fat", .num 8), ("saturated_fat", .num 3), ("protein", .num 2),
   ("fiber", .num 1), ("calories", .num 400)]

/-- The store state after inserting `w2Request` into an empty store. -/
def w2Store : Store := (add_product ([], []) w2Request).2

/-- A POST body missing most required fields. -/
def w4Request : Request := [("barcode", .str "9003003003003")]

/-- A POST body in which every required field key is present but bound to
null. -/
def w8Request : Request := required_fields.map (fun f => (f, JVal.null))

/-! ## Helper lemmas -/

/-- The comprehension `[a.strip() for a in xs if a.strip()]` is the
strip-map followed by the drop-empties filter. -/
theorem filterMap_strip_eq (l : List String) :
    l.filterMap (fun a =>
        let t := pyStrip a
        if t == "" then none else some t)
      = (l.map pyStrip).filter (fun t => t != "") := by
  induction l with
  | nil => rfl
  | cons a l ih =>
    by_cases h : pyStrip a = ""
    · simpa [List.filterMap_cons, List.filter_cons, h] using ih
    · simpa [List.filterMap_cons, List.filter_cons, h] using ih

/-- Extracting additives from a present string column always succeeds and
parses the raw string (an empty string is falsy and parses to `[]`). -/
theorem extractAdditives_str (s : String) :
    extractAdditives (some (.str s)) = some (parseAdditives s) := by
  by_cases h : s = ""
  · subst h; rfl
  · simp [extractAdditives, jTruthy, h]

/-- SQL NULL matches no row in a `WHERE barcode = ?` scan. -/
theorem find?_sqlEq_null (rows : List ProductRow) :
    rows.find? (fun r => sqlEq r.barcode JVal.null) = none := by
  rw [List.find?_eq_none]
  intro r _
  cases hr : r.barcode <;> simp [sqlEq, hr]

/-! ## Claims -/

/-- C3: additive parsing splits the raw string on commas, strips each
token, drops empty tokens and preserves order; in particular
`" E471, E282 ,,"` parses to exactly `["E471", "E282"]`. -/
theorem additive_parsing_spec :
    parseAdditives " E471, E282 ,," = ["E471", "E282"] ∧
    ∀ s : String,
      parseAdditives s = ((splitComma s).map pyStrip).filter (fun t => t != "") :=
  ⟨by decide, fun s => filterMap_strip_eq (splitComma s)⟩

/-- C6: for non-negative nutrient inputs and any additive list, the
health score lies in the clamp range between 0 and 100. -/
theorem health_score_clamped (n : NutritionInput) (additives : List String)
    (_hsu : 0 ≤ n.sugar) (_hsa : 0 ≤ n.salt) (_hst : 0 ≤ n.saturated_fat)
    (_hpr : 0 ≤ n.protein) (_hfi : 0 ≤ n.fiber) :
    0 ≤ calculate_health_score n additives ∧
      calculate_health_score n additives ≤ 100 := by
  unfold calculate_health_score
  exact ⟨le_min (by norm_num) (le_max_left 0 _), min_le_left _ _⟩

/-- C6 witness: the clamp bounds at the Coca-Cola sample's nutrients and
additives. -/
theorem health_score_clamped_witness :
    (0 : ℚ) ≤ 10.6 ∧ (0 : ℚ) ≤ 0 ∧
    (0 ≤ calculate_health_score ⟨10.6, 0, 0, 0, 0⟩ ["E150d", "E338"] ∧
      calculate_health_score ⟨10.6, 0, 0, 0, 0⟩ ["E150d", "E338"] ≤ 100) :=
  ⟨by norm_num, le_refl 0,
   health_score_clamped ⟨10.6, 0, 0, 0, 0⟩ ["E150d", "E338"]
     (by norm_num) (le_refl 0) (le_refl 0) (le_refl 0) (le_refl 0)⟩

/-- C7: the scorer is deterministic — two calls on identical nutrition
snapshots and identical additive lists produce identical scores (the
model is a pure function: no state, randomness or I/O occurs). -/
theorem health_score_deterministic (n₁ n₂ : NutritionInput)
    (a₁ a₂ : List String) (hn : n₁ = n₂) (ha : a₁ = a₂) :
    calculate_health_score n₁ a₁ = calculate_health_score n₂ a₂ := by
  rw [hn, ha]

/-- C7 witness: two identical calls at the Coca-Cola sample inputs. -/
theorem health_score_deterministic_witness :
    (⟨10.6, 0, 0, 0, 0⟩ : NutritionInput) = ⟨10.6, 0, 0, 0, 0⟩ ∧
    calculate_health_score ⟨10.6, 0, 0, 0, 0⟩ ["E150d", "E338"]
      = calculate_health_score ⟨10.6, 0, 0, 0, 0⟩ ["E150d", "E338"] :=
  ⟨rfl, health_score_deterministic ⟨10.6, 0, 0, 0, 0⟩ ⟨10.6, 0, 0, 0, 0⟩
    ["E150d", "E338"] ["E150d", "E338"] rfl rfl⟩

/-- C10: the app module cannot start against the provided database
module: `create_connection` and `DB_NAME` are not bound in database.py
(which binds `get_db_connection` and `DATABASE`), so the import at app.py
line 3 raises ImportError at module load; moreover `check_db_exists`
takes one parameter while app.py's startup calls it with zero arguments.
Every startup attempt fails before any request is served. -/
theorem startup_import_mismatch :
    appStartup = .error "ImportError" ∧
    appModuleImportOk = false ∧
    databaseModuleNames.contains "create_connection" = false ∧
    databaseModuleNames.contains "DB_NAME" = false ∧
    databaseModuleNames.contains "check_db_exists" = true ∧
    databaseModuleNames.contains "get_db_connection" = true ∧
    databaseModuleNames.contains "DATABASE" = true ∧
    check_db_exists_paramCount ≠ appStartupCallArgCount :=
  ⟨rfl, by decide, by decide, by decide, by decide, by decide, by decide,
   by decide⟩

/-- C9: lookup derives the additive list solely from the `additives`
column of the products row.  On the store `init_db` builds (whose
products table has no such column), every seed product — including each
one whose additives were seeded into the separate child table — gets a
200 response with an empty additive list; the seeded child rows exist but
are never consulted (the GET result is invariant under arbitrary changes
to the child table). -/
theorem seeded_additives_ignored :
    (∀ p ∈ SAMPLE_PRODUCTS,
        respAdditives (get_product init_db_store.1 p.barcode) = some []) ∧
    init_db_store.2 ≠ [] ∧
    (∀ (rows : List ProductRow) (a₁ a₂ : List AdditiveRow) (b : String),
        (get_product_route (rows, a₁) b).1 = (get_product_route (rows, a₂) b).1) :=
  ⟨by decide, by decide, fun _ _ _ _ => rfl⟩

/-- C9 witness: the Coca-Cola seed product (whose two additives sit in
the child table) gets an empty additive list from lookup. -/
theorem seeded_additives_ignored_witness :
    cokeSample ∈ SAMPLE_PRODUCTS ∧
    respAdditives (get_product init_db_store.1 cokeSample.barcode) = some [] :=
  ⟨List.mem_cons_self cokeSample _,
   seeded_additives_ignored.1 cokeSample (List.mem_cons_self cokeSample _)⟩

/-- C4: an insert request missing any required field fails with the
validation error (HTTP 400) before any persistence attempt — the store is
returned unchanged. -/
theorem missing_fields_validation (store : Store) (data : Request)
    (h : required_fields.all (fun f => (jget data f).isSome) = false) :
    add_product store data
      = (.badRequest "Missing required nutritional fields.", store) ∧
    (add_product store data).1.httpStatus = 400 := by
  have hd : add_product store data
      = (.badRequest "Missing required nutritional fields.", store) := by
    unfold add_product
    rw [h]
    rfl
  exact ⟨hd, by rw [hd]; rfl⟩

/-- C4 witness: a request holding only a barcode is rejected with 400 on
the empty store, which is unchanged. -/
theorem missing_fields_validation_witness :
    required_fields.all (fun f => (jget w4Request f).isSome) = false ∧
    (add_product (([], []) : Store) w4Request
       = (.badRequest "Missing required nutritional fields.", (([], []) : Store)) ∧
     (add_product (([], []) : Store) w4Request).1.httpStatus = 400) :=
  ⟨by decide, missing_fields_validation ([], []) w4Request (by decide)⟩

/-- C5: lookup of a barcode matching no row returns the 404 not-found
result with its error body, never a fault, and leaves the store
untouched. -/
theorem unknown_barcode_notFound (store : Store) (b : String)
    (h : store.1.find? (fun r => sqlEq r.barcode (.str b)) = none) :
    get_product_route store b
      = (.notFound "Product not found in the database.", store) ∧
    (get_product_route store b).1.httpStatus = some 404 ∧
    (get_product_route store b).1 ≠ .fault := by
  have hg : get_product store.1 b
      = .notFound "Product not found in the database." := by
    unfold get_product
    rw [h]
  refine ⟨?_, ?_, ?_⟩
  · simp [get_product_route, hg]
  · simp [get_product_route, hg, GetResult.httpStatus]
  · simp [get_product_route, hg]

/-- C5 witness: an unknown barcode on the empty store. -/
theorem unknown_barcode_notFound_witness :
    (([], []) : Store).1.find?
        (fun r => sqlEq r.barcode (.str "0000000000000")) = none ∧
    (get_product_route (([], []) : Store) "0000000000000"
       = (.notFound "Product not found in the database.", (([], []) : Store)) ∧
     (get_product_route (([], []) : Store) "0000000000000").1.httpStatus = some 404 ∧
     (get_product_route (([], []) : Store) "0000000000000").1 ≠ .fault) :=
  ⟨rfl, unknown_barcode_notFound ([], []) "0000000000000" rfl⟩

/-- C2: a well-formed insert whose barcode already matches a stored row
fails with the duplicate-key conflict (HTTP 409), and the store after the
failed attempt is exactly the store before it. -/
theorem duplicate_insert_conflict (store : Store) (data : Request)
    (hval : required_fields.all (fun f => (jget data f).isSome) = true)
    (hdup : (store.1.find?
        (fun r => sqlEq r.barcode ((jget data "barcode").getD .null))).isSome
      = true) :
    add_product store data
      = (.conflict ((jget data "barcode").getD .null), store) ∧
    (add_product store data).1.httpStatus = 409 := by
  obtain ⟨r, hr⟩ := Option.isSome_iff_exists.mp hdup
  have hd : add_product store data
      = (.conflict ((jget data "barcode").getD .null), store) := by
    unfold add_product
    rw [hval]
    simp only [if_true]
    rw [hr]
  exact ⟨hd, by rw [hd]; rfl⟩

/-- C2 witness: re-posting the identical valid request after a successful
insert into the empty store yields 409 and the unchanged store. -/
theorem duplicate_insert_conflict_witness :
    required_fields.all (fun f => (jget w2Request f).isSome) = true ∧
    (w2Store.1.find?
        (fun r => sqlEq r.barcode ((jget w2Request "barcode").getD .null))).isSome
      = true ∧
    (add_product w2Store w2Request
       = (.conflict ((jget w2Request "barcode").getD .null), w2Store) ∧
     (add_product w2Store w2Request).1.httpStatus = 409) :=
  ⟨by decide, by decide,
   duplicate_insert_conflict w2Store w2Request (by decide) (by decide)⟩

/-- C8: insert validation checks only the presence of the required keys,
not their values: a request binding every required key to null passes
validation and is persisted with null in every required column (category
and additives still get their defaults). -/
theorem validation_presence_only (store : Store) (data : Request)
    (hnull : ∀ f ∈ required_fields, jget data f = some JVal.null) :
    ∃ row : ProductRow,
      add_product store data = (.created JVal.null, (store.1 ++ [row], store.2)) ∧
      (add_product store data).1.httpStatus = 201 ∧
      row.barcode = .null ∧ row.name = .null ∧ row.brand = .null ∧
      row.sugar = .null ∧ row.salt = .null ∧ row.fat = .null ∧
      row.saturated_fat = .null ∧ row.protein = .null ∧ row.fiber = .null ∧
      row.calories = .null := by
  have hb := hnull "barcode" (by decide)
  have hn := hnull "name" (by decide)
  have hbr := hnull "brand" (by decide)
  have hsu := hnull "sugar" (by decide)
  have hsa := hnull "salt" (by decide)
  have hf := hnull "fat" (by decide)
  have hsf := hnull "saturated_fat" (by decide)
  have hp := hnull "protein" (by decide)
  have hfi := hnull "fiber" (by decide)
  have hc := hnull "calories" (by decide)
  have hval : required_fields.all (fun f => (jget data f).isSome) = true := by
    simp [required_fields, hb, hn, hbr, hsu, hsa, hf, hsf, hp, hfi, hc]
  have hd : add_product store data
      = (.created JVal.null,
         (store.1 ++
            [⟨.null, .null, .null, (jget data "category").getD (.str "General"),
              .null, .null, .null, .null, .null, .null, .null,
              some ((jget data "additives").getD (.str ""))⟩],
          store.2)) := by
    unfold add_product
    rw [hval]
    simp only [if_true, hb, hn, hbr, hsu, hsa, hf, hsf, hp, hfi, hc,
      Option.getD_some, find?_sqlEq_null]
  exact ⟨_, hd, by rw [hd]; rfl, rfl, rfl, rfl, rfl, rfl, rfl, rfl, rfl, rfl, rfl⟩

/-- C8 witness: the all-null request is accepted on the empty store and
persisted with null required columns. -/
theorem validation_presence_only_witness :
    (∀ f ∈ required_fields, jget w8Request f = some JVal.null) ∧
    (∃ row : ProductRow,
      add_product (([], []) : Store) w8Request
          = (.created JVal.null, (([] : List ProductRow) ++ [row], [])) ∧
      (add_product (([], []) : Store) w8Request).1.httpStatus = 201 ∧
      row.barcode = .null ∧ row.name = .null ∧ row.brand = .null ∧
      row.sugar = .null ∧ row.salt = .null ∧ row.fat = .null ∧
      row.saturated_fat = .null ∧ row.protein = .null ∧ row.fiber = .null ∧
      row.calories = .null) :=
  ⟨by decide, validation_presence_only ([], []) w8Request (by decide)⟩

/-- C1: a valid insert (all required fields present, string barcode not
yet in the store, additive input a raw string, nutrients numeric or
absent/null) is accepted, and a subsequent lookup with that barcode
returns exactly the inserted record — identity, category with its
default, every nutrition value — and exactly the inserted additive list,
as the ordered parse of the raw additive string. -/
theorem roundTrip_insert_lookup (store : Store) (data : Request)
    (b rawAdds : String)
    (hval : required_fields.all (fun f => (jget data f).isSome) = true)
    (hbar : jget data "barcode" = some (.str b))
    (hadds : (jget data "additives").getD (.str "") = .str rawAdds)
    (hsu : (jnum ((jget data "sugar").getD (.num 0))).isSome = true)
    (hsa : (jnum ((jget data "salt").getD (.num 0))).isSome = true)
    (hst : (jnum ((jget data "saturated_fat").getD (.num 0))).isSome = true)
    (hpr : (jnum ((jget data "protein").getD (.num 0))).isSome = true)
    (hfi : (jnum ((jget data "fiber").getD (.num 0))).isSome = true)
    (hfresh : store.1.find? (fun r => sqlEq r.barcode (.str b)) = none) :
    ∃ newStore : Store,
      add_product store data = (.created (.str b), newStore) ∧
      ∃ resp : ProductResponse,
        (get_product_route newStore b).1 = .ok resp ∧
        resp.barcode = .str b ∧
        resp.name = (jget data "name").getD .null ∧
        resp.brand = (jget data "brand").getD .null ∧
        resp.category = (jget data "category").getD (.str "General") ∧
        resp.sugar = (jget data "sugar").getD (.num 0) ∧
        resp.salt = (jget data "salt").getD (.num 0) ∧
        resp.fat = (jget data "fat").getD (.num 0) ∧
        resp.saturated_fat = (jget data "saturated_fat").getD (.num 0) ∧
        resp.protein = (jget data "protein").getD (.num 0) ∧
        resp.fiber = (jget data "fiber").getD (.num 0) ∧
        resp.calories = (jget data "calories").getD (.num 0) ∧
        resp.additives = parseAdditives rawAdds := by
  obtain ⟨su, hsu'⟩ := Option.isSome_iff_exists.mp hsu
  obtain ⟨sa, hsa'⟩ := Option.isSome_iff_exists.mp hsa
  obtain ⟨st, hst'⟩ := Option.isSome_iff_exists.mp hst
  obtain ⟨pr, hpr'⟩ := Option.isSome_iff_exists.mp hpr
  obtain ⟨fi, hfi'⟩ := Option.isSome_iff_exists.mp hfi
  refine ⟨(store.1 ++
      [⟨.str b, (jget data "name").getD .null, (jget data "brand").getD .null,
        (jget data "category").getD (.str "General"),
        (jget data "sugar").getD (.num 0), (jget data "salt").getD (.num 0),
        (jget data "fat").getD (.num 0),
        (jget data "saturated_fat").getD (.num 0),
        (jget data "protein").getD (.num 0),
        (jget data "fiber").getD (.num 0),
        (jget data "calories").getD (.num 0),
        some (.str rawAdds)⟩], store.2), ?_, ?_⟩
  · unfold add_product
    rw [hval]
    simp only [if_true, hbar, hadds, Option.getD_some, hfresh]
  · have hfind : (store.1 ++
        [(⟨.str b, (jget data "name").getD .null, (jget data "brand").getD .null,
          (jget data "category").getD (.str "General"),
          (jget data "sugar").getD (.num 0), (jget data "salt").getD (.num 0),
          (jget data "fat").getD (.num 0),
          (jget data "saturated_fat").getD (.num 0),
          (jget data "protein").getD (.num 0),
          (jget data "fiber").getD (.num 0),
          (jget data "calories").getD (.num 0),
          some (.str rawAdds)⟩ : ProductRow)]).find?
          (fun r => sqlEq r.barcode (.str b))
        = some ⟨.str b, (jget data "name").getD .null,
            (jget data "brand").getD .null,
            (jget data "category").getD (.str "General"),
            (jget data "sugar").getD (.num 0), (jget data "salt").getD (.num 0),
            (jget data "fat").getD (.num 0),
            (jget data "saturated_fat").getD (.num 0),
            (jget data "protein").getD (.num 0),
            (jget data "fiber").getD (.num 0),
            (jget data "calories").getD (.num 0),
            some (.str rawAdds)⟩ := by
      rw [List.find?_append, hfresh]
      simp [List.find?, sqlEq]
    refine ⟨⟨.str b, (jget data "name").getD .null,
        (jget data "brand").getD .null,
        (jget data "category").getD (.str "General"),
        calculate_health_score ⟨su, sa, st, pr, fi⟩ (parseAdditives rawAdds),
        (jget data "sugar").getD (.num 0), (jget data "salt").getD (.num 0),
        (jget data "fat").getD (.num 0),
        (jget data "saturated_fat").getD (.num 0),
        (jget data "protein").getD (.num 0),
        (jget data "fiber").getD (.num 0),
        (jget data "calories").getD (.num 0),
        parseAdditives rawAdds⟩,
      ?_, rfl, rfl, rfl, rfl, rfl, rfl, rfl, rfl, rfl, rfl, rfl, rfl⟩
    show get_product _ b = _
    unfold get_product
    rw [hfind]
    simp only [extractAdditives_str, hsu', hsa', hst', hpr', hfi']

/-- C1 witness: inserting the concrete request (additives
`" E471, E282 ,,"`) into the empty store and looking its barcode up. -/
theorem roundTrip_insert_lookup_witness :
    required_fields.all (fun f => (jget w1Request f).isSome) = true ∧
    jget w1Request "barcode" = some (.str "7001001001001") ∧
    (jget w1Request "additives").getD (.str "") = .str " E471, E282 ,," ∧
    (jnum ((jget w1Request "sugar").getD (.num 0))).isSome = true ∧
    (jnum ((jget w1Request "salt").getD (.num 0))).isSome = true ∧
    (jnum ((jget w1Request "saturated_fat").getD (.num 0))).isSome = true ∧
    (jnum ((jget w1Request "protein").getD (.num 0))).isSome = true ∧
    (jnum ((jget w1Request "fiber").getD (.num 0))).isSome = true ∧
    (([], []) : Store).1.find?
        (fun r => sqlEq r.barcode (.str "7001001001001")) = none ∧
    (∃ newStore : Store,
      add_product (([], []) : Store) w1Request
          = (.created (.str "7001001001001"), newStore) ∧
      ∃ resp : ProductResponse,
        (get_product_route newStore "7001001001001").1 = .ok resp ∧
        resp.barcode = .str "7001001001001" ∧
        resp.name = (jget w1Request "name").getD .null ∧
        resp.brand = (jget w1Request "brand").getD .null ∧
        resp.category = (jget w1Request "category").getD (.str "General") ∧
        resp.sugar = (jget w1Request "sugar").getD (.num 0) ∧
        resp.salt = (jget w1Request "salt").getD (.num 0) ∧
        resp.fat = (jget w1Request "fat").getD (.num 0) ∧
        resp.saturated_fat = (jget w1Request "saturated_fat").getD (.num 0) ∧
        resp.protein = (jget w1Request "protein").getD (.num 0) ∧
        resp.fiber = (jget w1Request "fiber").getD (.num 0) ∧
        resp.calories = (jget w1Request "calories").getD (.num 0) ∧
        resp.additives = parseAdditives " E471, E282 ,,") :=
  ⟨by decide, by decide, by decide, by decide, by decide, by decide,
   by decide, by decide, rfl,
   roundTrip_insert_lookup ([], []) w1Request "7001001001001" " E471, E282 ,,"
     (by decide) (by decide) (by decide) (by decide) (by decide) (by decide)
     (by decide) (by decide) rfl⟩

end HealthScanner
